import Mathlib

/-!
Verification of the depp executor subsystem: table-reference parsing,
result interpretation, phase timing, geometry-aware reads, array-column
detection, write paths for PostgreSQL and Snowflake, and the executor
registry.  Each Lean definition is a shallow embedding of the Python
function of the same (or clearly related) name in
`src/dbt/adapters/depp/`.
-/

namespace Depp

/-- Default spatial reference id.  Modelled from the spec: the module
`db/base.py` that defines the `DEFAULT_SRID` constant is not in the
source tree; the spec fixes it as "a constant shared across backends"
and its tests use 4326.  No claim below depends on its value. -/
def DEFAULT_SRID : Nat := 4326

/- ## Table reference parsing (`executors/protocols.py`, `SourceInfo.parse`) -/

/-- Python `s.strip('"')`: remove every leading and trailing `"` character. -/
def stripQuotes (s : String) : String :=
  String.mk (((s.toList.dropWhile (fun c => c = '"')).reverse.dropWhile
    (fun c => c = '"')).reverse)

/-- Python `s.split(".")` over the character list: splitting on every
dot, keeping empty segments, and yielding `[""]` on the empty string. -/
def splitDotChars : List Char → List (List Char)
  | [] => [[]]
  | c :: cs =>
      match splitDotChars cs with
      | [] => [[]]
      | seg :: segs => if c = '.' then [] :: seg :: segs else (c :: seg) :: segs

/-- Python `table_name.split(".")`. -/
def pySplitDot (s : String) : List String :=
  (splitDotChars s.toList).map String.mk

/-- The list `parts` in `SourceInfo.parse`:
`[p.strip('"') for p in table_name.split(".")]`. -/
def parseParts (table_name : String) : List String :=
  (pySplitDot table_name).map stripQuotes

/-- Python negative indexing `l[-k]` on a list of strings: defined when
`k ≤ len(l)`, an `IndexError` (here `none`) otherwise. -/
def pyGetNeg (l : List String) (k : Nat) : Option String :=
  if k ≤ l.length then l.get? (l.length - k) else none

/-- Parsed database table reference (`SourceInfo`). -/
structure SourceInfo where
  full_name : String
  schema : String
  table : String
deriving DecidableEq

/-- Shallow embedding of `SourceInfo.parse`.  The Python body indexes
`parts[-2]` and `parts[-1]`; with fewer than two segments the `parts[-2]`
access raises `IndexError` (the spec's `MalformedReference` condition),
modelled as `none`. -/
def SourceInfo.parse (table_name : String) : Option SourceInfo :=
  let parts := parseParts table_name
  match pyGetNeg parts 2, pyGetNeg parts 1 with
  | some s, some t => some ⟨s ++ "." ++ t, s, t⟩
  | _, _ => none

/- ## Result interpretation in `Executor.submit` (`executors/executor.py`) -/

/-- Output of a write (`executors/result.py`, `ExecutionResult`). -/
structure ExecutionResultM where
  rows_affected : Nat
  schema : String
  table : String

/-- A Python value as far as `Executor.submit` inspects the model's
return value: a `dict`, an `ExecutionResult` instance (fields are
arbitrary values in Python; represented abstractly by an id), an `int`,
a `str`, or any other object, tagged with whether attribute assignment
on it succeeds (plain objects accept it, slotted/builtin ones do not). -/
inductive PyVal where
  | dict (entries : List (String × Nat))
  | resultObj (fieldsId : Nat)
  | int (n : Int)
  | str (s : String)
  | obj (settableAttrs : Bool)

/-- Keys of a dict value (Python dict keys are unique and ordered). -/
def dictKeys (entries : List (String × Nat)) : List String :=
  entries.map Prod.fst

/-- Whether `ExecutionResult(**d)` succeeds: the dataclass has exactly
the three required fields and no defaults, so construction succeeds iff
the keys are exactly `rows_affected`, `schema`, `table` (each once). -/
def keysMatchResult (entries : List (String × Nat)) : Bool :=
  (dictKeys entries).length = 3
    && (dictKeys entries).contains "rows_affected"
    && (dictKeys entries).contains "schema"
    && (dictKeys entries).contains "table"

/-- Errors that can escape the result-interpretation tail of `submit`. -/
inductive SubmitValueError where
  | typeError
  | attributeError

/-- The expression
`ExecutionResult(**result) if isinstance(result, dict) else result`:
a dict with matching keys is converted to a result object, a dict with
other keys raises `TypeError`, and every non-dict value is passed
through unchanged, with no validation. -/
def interpretResult (v : PyVal) : Except SubmitValueError PyVal :=
  match v with
  | .dict entries =>
      if keysMatchResult entries then .ok (.resultObj 0) else .error .typeError
  | other => .ok other

/-- The assignments `exec_result.read_time = ...` etc.: attribute
assignment succeeds on an `ExecutionResult` (a plain dataclass) and on
any object with a writable `__dict__`, and raises `AttributeError` on
`int`, `str` and dict values. -/
def setTimingAttrs (v : PyVal) : Except SubmitValueError PyVal :=
  match v with
  | .resultObj i => .ok (.resultObj i)
  | .obj true => .ok (.obj true)
  | .obj false => .error .attributeError
  | .int _ => .error .attributeError
  | .str _ => .error .attributeError
  | .dict _ => .error .attributeError

/-- The full result-interpretation tail of `Executor.submit`, applied to
the value returned by `main`. -/
def submitInterpret (v : PyVal) : Except SubmitValueError PyVal :=
  match interpretResult v with
  | .ok r => setTimingAttrs r
  | .error e => .error e

/- ## Phase timing in `Executor.submit` -/

/-- One event during the model's `main(read, write)` run, with the
durations (clock ticks) of its parts.  A `read` is `read_df`: an
untimed `SourceInfo.parse`, a timed `reader.read_arrow`, an untimed
`converter.from_arrow`.  A `write` is `write_df`: an untimed parse and
a timed `writer.write`.  `transform` is model code between calls. -/
inductive ModelEvent where
  | read (parseDur arrowDur convertDur : Nat)
  | write (parseDur writeDur : Nat)
  | transform (dur : Nat)

/-- Wall-clock duration of one event. -/
def eventDur : ModelEvent → Nat
  | .read p a c => p + a + c
  | .write p w => p + w
  | .transform d => d

/-- Contribution of one event to the `read_time` accumulator. -/
def readContrib : ModelEvent → Nat
  | .read _ a _ => a
  | _ => 0

/-- Contribution of one event to the `write_time` accumulator. -/
def writeContrib : ModelEvent → Nat
  | .write _ w => w
  | _ => 0

/-- The executor's two timing accumulators. -/
structure ExecutorTimers where
  read_time : Nat
  write_time : Nat

/-- Accumulation of the timers over the events of one `main` run, as
performed by the `read_df`/`write_df` closures. -/
def runEvents : ExecutorTimers → List ModelEvent → ExecutorTimers
  | t, [] => t
  | t, e :: es => runEvents ⟨t.read_time + readContrib e, t.write_time + writeContrib e⟩ es

/-- Total elapsed time measured around the `main` call. -/
def totalElapsed (events : List ModelEvent) : Nat :=
  (events.map eventDur).sum

/-- The timing fields attached to the returned result. -/
structure TimedResult where
  read_time : Nat
  write_time : Nat
  transform_time : Int

/-- Timing behaviour of `Executor.submit`: the pre-call accumulator
state `st` is overwritten with zero (`self.read_time = 0.0` etc.), the
events of this call accumulate, and
`transform_time = total_time - read_time - write_time`. -/
def submitTiming (st : ExecutorTimers) (events : List ModelEvent) : TimedResult :=
  let _ := st
  let final := runEvents ⟨0, 0⟩ events
  ⟨final.read_time, final.write_time,
    (totalElapsed events : Int) - final.read_time - final.write_time⟩

/- ## PostgreSQL geometry-aware read (`executors/readers/postgres.py`) -/

/-- Arrow table with geometry column metadata
(`executors/protocols.py`, `GeoArrowResult`); the `table` payload is
abstract. -/
structure GeoArrowResult (α : Type) where
  table : α
  geometry_columns : List String
  srid : Nat
  format : String

/-- The projection `f"ST_AsBinary({c}) as {c}_wkb"` used for a geometry
column. -/
def wkbProjection (c : String) : String :=
  "ST_AsBinary(" ++ c ++ ") as " ++ c ++ "_wkb"

/-- The select list built by `PostgresGeoReader.read_arrow`:
`regular + [ST_AsBinary(c) as c_wkb for c in geom_names]`, where
`regular = [c for c in all_cols if c not in geom_cols]`. -/
def postgresGeoSelectParts (allCols : List String) (geomCols : List (String × Nat)) :
    List String :=
  let geomNames := geomCols.map Prod.fst
  let regular := allCols.filter (fun c => !geomNames.contains c)
  regular ++ geomNames.map wkbProjection

/-- The query string of `PostgresGeoReader.read_arrow`. -/
def postgresGeoQuery (schema table : String) (allCols : List String)
    (geomCols : List (String × Nat)) : String :=
  "SELECT " ++ String.intercalate ", " (postgresGeoSelectParts allCols geomCols)
    ++ " FROM \"" ++ schema ++ "\".\"" ++ table ++ "\""

/-- Shallow embedding of `PostgresGeoReader.read_arrow`.  `geomCols` is
what `get_geometry_columns` returned (column name with SRID, catalog
order), `allCols` what `get_all_columns` returned (ordinal order), and
`execQuery` abstracts `cx.read_sql` on the built query. -/
def postgresGeoRead {α : Type} (schema table : String) (geomCols : List (String × Nat))
    (allCols : List String) (execQuery : String → α) : GeoArrowResult α :=
  let srid := match geomCols with
    | [] => DEFAULT_SRID
    | (_, s) :: _ => s
  ⟨execQuery (postgresGeoQuery schema table allCols geomCols),
    geomCols.map Prod.fst, srid, "wkb"⟩

/-- Refinement target taken from the spec's words for C4: a projected
SELECT "in which each geometry column is replaced by
`ST_AsBinary(col) AS col_wkb` while preserving the table's original
column order", i.e. an in-place substitution over `allCols`. -/
def specOrderPreservingParts (allCols : List String) (geomNames : List String) :
    List String :=
  allCols.map (fun c => if geomNames.contains c then wkbProjection c else c)

/- ## Array-column detection (`executors/converters.py`) -/

/-- A Python value as stored in a dataframe cell: missing (`None`/`NaN`),
an `int`, a `str`, or a `list` (also covering `np.ndarray`). -/
inductive PdVal where
  | null
  | int (n : Int)
  | str (s : String)
  | list (elems : List PdVal)

/-- The helper `is_array_like`: `isinstance(x, (list, np.ndarray))`. -/
def isArrayLike : PdVal → Bool
  | .list _ => true
  | _ => false

/-- Whether a value is missing (`None`/`NaN`), i.e. dropped by `dropna`. -/
def PdVal.isNull : PdVal → Bool
  | .null => true
  | _ => false

/-- Whether `isinstance(v, int)` holds. -/
def PdVal.isInt : PdVal → Bool
  | .int _ => true
  | _ => false

/-- Python iteration `for v in sample`: a list yields its elements, a
string its one-character substrings, an int or `None` raises
`TypeError` (not iterable). -/
def pyIter : PdVal → Option (List PdVal)
  | .list l => some l
  | .str s => some (s.toList.map (fun c => .str (String.mk [c])))
  | _ => none

mutual

/-- Python `str(x)` as used by `PostgresOps.format_array`; nested lists
use the bracketed element rendering. -/
def pyStr : PdVal → String
  | .null => "None"
  | .int n => toString n
  | .str s => s
  | .list l => "[" ++ String.intercalate ", " (pyStrList l) ++ "]"

/-- Renders each value of a list with `pyStr`. -/
def pyStrList : List PdVal → List String
  | [] => []
  | v :: vs => pyStr v :: pyStrList vs

end

/-- Embedding of `PostgresOps.format_array` (`db/postgres.py`):
`"{" + ",".join(str(x) for x in values) + "}"`. -/
def pgFormatArray (values : List PdVal) : String :=
  "\x7b" ++ String.intercalate "," (values.map pyStr) ++ "\x7d"

/-- A pandas column: name, whether `select_dtypes("object")` keeps it,
and its values. -/
structure PdColumn where
  name : String
  isObjectDtype : Bool
  values : List PdVal

/-- Failure of the detection pass (Python `TypeError` from iterating a
non-iterable sample). -/
inductive ConvErr where
  | typeError

/-- The sample of `detect_pandas_array_columns`:
`df[col].dropna().iloc[0] if df[col].notna().any() else None`. -/
def firstNonNull (values : List PdVal) : Option PdVal :=
  values.find? (fun v => !v.isNull)

/-- The flag `is_int = sample is not None and all(isinstance(v, int) for
v in sample)`; iterating a non-iterable sample raises `TypeError`. -/
def sampleIsInt (values : List PdVal) : Except ConvErr Bool :=
  match firstNonNull values with
  | none => .ok false
  | some v =>
      match pyIter v with
      | some elems => .ok (elems.all PdVal.isInt)
      | none => .error .typeError

/-- The per-value rewrite
`ops.format_array(list(x)) if is_array_like(x) else None`. -/
def rewriteArrayValue (fmt : List PdVal → String) : PdVal → PdVal
  | .list l => .str (fmt l)
  | _ => .null

/-- One column's treatment inside `detect_pandas_array_columns`: columns
that are not object-dtype, or contain no array-like value, are skipped
(`none` tag); otherwise the values are rewritten and the column is
tagged. -/
def processPandasColumn (fmt : List PdVal → String) (col : PdColumn) :
    Except ConvErr (PdColumn × Option Bool) :=
  if !col.isObjectDtype then .ok (col, none)
  else if !col.values.any isArrayLike then .ok (col, none)
  else
    match sampleIsInt col.values with
    | .error e => .error e
    | .ok b => .ok (⟨col.name, col.isObjectDtype, col.values.map (rewriteArrayValue fmt)⟩, some b)

/-- Shallow embedding of `detect_pandas_array_columns`
(`executors/converters.py`), used by `PandasConverter` and
`GeoPandasConverter`; `fmt` is the bound `db_ops.format_array`. -/
def detect_pandas_array_columns (fmt : List PdVal → String) :
    List PdColumn → Except ConvErr (List PdColumn × List (String × Bool))
  | [] => .ok ([], [])
  | col :: rest =>
      match processPandasColumn fmt col with
      | .error e => .error e
      | .ok (col1, tag) =>
          match detect_pandas_array_columns fmt rest with
          | .error e => .error e
          | .ok (rest1, tags) =>
              .ok (col1 :: rest1,
                (match tag with
                  | some b => [(col.name, b)]
                  | none => []) ++ tags)

/-- A Polars column as `PolarsConverter.prepare_array_columns` sees it:
a `pl.List`-dtype column (each value `None` or a list), the `pl.Utf8`
column produced by the rewrite, or a column of any other dtype, which
the pass never touches. -/
inductive PlColumn where
  | listCol (name : String) (values : List (Option (List PdVal)))
  | strCol (name : String) (values : List (Option String))
  | plainCol (name : String) (rowCount : Nat)

/-- Shallow embedding of `PolarsConverter.prepare_array_columns`
(`executors/converters.py`): a column is handled iff its dtype is
`pl.List`; its values are replaced by
`[db_ops.format_array(v) if v is not None else None for v in values]`
and it is tagged by
`sample is not None and all(isinstance(x, int) for x in sample)` where
`sample = next((v for v in values if v is not None), None)`. -/
def polarsPrepare (fmt : List PdVal → String) :
    List PlColumn → List PlColumn × List (String × Bool)
  | [] => ([], [])
  | .listCol name values :: rest =>
      let sample := values.findSome? id
      let tag := match sample with
        | some l => l.all PdVal.isInt
        | none => false
      let out := polarsPrepare fmt rest
      (.strCol name (values.map (Option.map fmt)) :: out.1, (name, tag) :: out.2)
  | col :: rest =>
      let out := polarsPrepare fmt rest
      (col :: out.1, out.2)

/- ## Frame heights (Python `len(df)`: the number of rows) -/

/-- Number of rows of a pandas-style frame (`len(df)`); frames are
rectangular, so the first column's length is the frame's height. -/
def pdHeight (df : List PdColumn) : Nat :=
  match df with
  | [] => 0
  | c :: _ => c.values.length

/-- Number of rows held by one Polars column. -/
def plColHeight : PlColumn → Nat
  | .listCol _ vs => vs.length
  | .strCol _ vs => vs.length
  | .plainCol _ k => k

/-- Number of rows of a Polars frame (`len(df)`). -/
def plHeight (df : List PlColumn) : Nat :=
  match df with
  | [] => 0
  | c :: _ => plColHeight c

/- ## Converter bundles used by the writers -/

/-- The converter operations a writer calls, specialised to one frame
representation.  `to_polars`/`to_pandas` are the value-preserving frame
conversions of `executors/converters.py`; on the columnar
representation used here both are the identity on the stored data. -/
structure ConverterOps (F : Type) where
  prepare : (List PdVal → String) → F → Except ConvErr (F × List (String × Bool))
  toPolars : F → F
  toPandas : F → F

/-- The `PolarsConverter` as used by writers: `prepare_array_columns` is
`polarsPrepare` (it cannot raise), `to_polars` returns the frame as-is,
`to_pandas` converts values losslessly. -/
def polarsConverterOps : ConverterOps (List PlColumn) :=
  ⟨fun fmt df => .ok (polarsPrepare fmt df), id, id⟩

/-- The `PandasConverter` (and `GeoPandasConverter`) as used by writers:
`prepare_array_columns` is `detect_pandas_array_columns`; the frame
conversions preserve the stored data. -/
def pandasConverterOps : ConverterOps (List PdColumn) :=
  ⟨detect_pandas_array_columns, id, id⟩

/- ## PostgreSQL writers (`executors/writers/postgres.py`) -/

/-- Embedding of `PostgresOps.array_type`: `"INTEGER[]" if is_integer else "TEXT[]"`. -/
def pgArrayType (is_integer : Bool) : String :=
  if is_integer then "INTEGER[]" else "TEXT[]"

/-- Embedding of `PostgresOps.post_write_sql`: the ALTER TABLE cast statement. -/
def pgPostWriteSql (schema table col dtype : String) : String :=
  "ALTER TABLE " ++ schema ++ "." ++ table ++ " ALTER COLUMN " ++ col
    ++ " TYPE " ++ dtype ++ " USING " ++ col ++ "::" ++ dtype

/-- Which database operation of a write, if any, fails with a backend
error in a given run. -/
inductive FailPoint where
  | noFail
  | atBulkLoad
  | atArrayCast

/-- Terminal errors a write can raise. -/
inductive WriteError where
  | conversionError
  | backendError

/-- Shallow embedding of `PostgresWriter.write`.  The destination
table's state is `dest` (contents, or `none` when absent).  The method
first runs `prepare_array_columns` (a conversion error here precedes
any database operation), converts to Polars, then calls
`ops.drop_table`, which executes `DROP TABLE IF EXISTS ... CASCADE`
and commits it on its own connection — so the destination is gone
before `write_database` starts.  A bulk-load failure therefore leaves
no table; an array-cast failure leaves the newly loaded table with
text-typed array columns (the cast only alters column types, which
this state does not track).  On success the result carries
`len(polars_df)` and the parsed schema and table. -/
def postgresWriterWrite {F : Type} (conv : ConverterOps F) (height : F → Nat)
    (fmt : List PdVal → String) (fail : FailPoint)
    (dest : Option F) (df : F) (src : SourceInfo) :
    Option F × Except WriteError ExecutionResultM :=
  match conv.prepare fmt df with
  | .error _ => (dest, .error .conversionError)
  | .ok (df1, array_cols) =>
      let polars_df := conv.toPolars df1
      match fail with
      | .atBulkLoad => (none, .error .backendError)
      | .atArrayCast =>
          if array_cols.isEmpty then
            (some polars_df, .ok ⟨height polars_df, src.schema, src.table⟩)
          else (some polars_df, .error .backendError)
      | .noFail => (some polars_df, .ok ⟨height polars_df, src.schema, src.table⟩)

/-- Shallow embedding of the successful path of
`PostgresGeoWriter.write`: `gdf.to_postgis(..., if_exists="replace")`
replaces the destination and the result carries `len(gdf)` and the
parsed schema and table.  (The SRID and geometry dtype map it also
builds do not affect the returned result.) -/
def postgresGeoWriterWrite {F : Type} (height : F → Nat)
    (dest : Option F) (df : F) (src : SourceInfo) :
    Option F × Except WriteError ExecutionResultM :=
  let _ := dest
  (some df, .ok ⟨height df, src.schema, src.table⟩)

/- ## Snowflake writers (`executors/writers/snowflake.py`) -/

/-- Subset of JSON rendering backing `json.dumps` (string escaping not
modelled; no claim depends on it). -/
def jsonOfOptString : Option String → String
  | none => "null"
  | some s => "\"" ++ s ++ "\""

mutual

/-- Python `json.dumps` on a dataframe cell value, as `SnowflakeOps.format_array`
applies it to a list of such values. -/
def jsonOfPdVal : PdVal → String
  | .null => "null"
  | .int n => toString n
  | .str s => "\"" ++ s ++ "\""
  | .list l => "[" ++ String.intercalate ", " (jsonOfPdValList l) ++ "]"

/-- Renders each value of a list with `jsonOfPdVal`. -/
def jsonOfPdValList : List PdVal → List String
  | [] => []
  | v :: vs => jsonOfPdVal v :: jsonOfPdValList vs

end

/-- Embedding of `SnowflakeOps.format_array` (`db/snowflake.py`): `json.dumps(values)`. -/
def sfFormatArray (values : List PdVal) : String :=
  "[" ++ String.intercalate ", " (values.map jsonOfPdVal) ++ "]"

/-- Python `s.upper()` (ASCII identifiers). -/
def pyUpper (s : String) : String :=
  String.mk (s.toList.map Char.toUpper)

/-- Python `s.lower()` (ASCII identifiers). -/
def pyLower (s : String) : String :=
  String.mk (s.toList.map Char.toLower)

/-- Embedding of `SnowflakeOps.format_identifier`: uppercase, unquoted. -/
def snowflakeFormatIdentifier (name : String) : String :=
  pyUpper name

/-- One item of the CTAS select list in `cast_geography_columns`:
`TRY_TO_GEOGRAPHY(C) AS C` for a geometry column, `C` otherwise, with
`C = c.upper()`; membership is tested against the lowercased geometry
column names. -/
def ctasSelectItem (geomSet : List String) (c : String) : String :=
  if geomSet.contains c then
    "TRY_TO_GEOGRAPHY(" ++ pyUpper c ++ ") AS " ++ pyUpper c
  else pyUpper c

/-- The single statement issued by `cast_geography_columns`
(`executors/writers/snowflake.py`): one `CREATE OR REPLACE TABLE ... AS
SELECT ...` rebuilding the table in place. -/
def cast_geography_columns_sql (schema table : String)
    (allCols geomCols : List String) : String :=
  let s := snowflakeFormatIdentifier schema
  let t := snowflakeFormatIdentifier table
  let geomSet := geomCols.map pyLower
  "CREATE OR REPLACE TABLE "
    ++ (s ++ "." ++ t ++ " AS SELECT "
        ++ String.intercalate ", " (allCols.map (ctasSelectItem geomSet))
        ++ " FROM " ++ s ++ "." ++ t)

/-- The externally visible steps of `SnowflakeGeoWriter.write`, in
program order. -/
inductive SfAction where
  | stringifyGeometry (col : String)
  | prepareArrayColumns
  | toPandas
  | writePandas (table schema : String)
  | execSql (sql : String)

/-- Action trace of `SnowflakeGeoWriter.write`: stringify each geometry
column (GeoJSON via `ops.geometry_to_db`), run the generic
array-detection path, convert to pandas, bulk-load via `write_pandas`,
then — only when geometry columns exist — execute the single CTAS from
`cast_geography_columns`.  `geomCols` is `geometry_columns(df)` and
`allCols` is what `get_all_columns` returns inside
`cast_geography_columns`. -/
def snowflakeGeoWriteActions (schema table : String)
    (geomCols allCols : List String) : List SfAction :=
  geomCols.map SfAction.stringifyGeometry
    ++ [SfAction.prepareArrayColumns, SfAction.toPandas,
        SfAction.writePandas table schema]
    ++ (if geomCols.isEmpty then []
        else [SfAction.execSql (cast_geography_columns_sql schema table allCols geomCols)])

/-- The SQL statement an action executes, if any. -/
def sqlOfAction : SfAction → Option String
  | .execSql q => some q
  | _ => none

/-- The SQL statements a trace executes, in order. -/
def sqlStatements (acts : List SfAction) : List String :=
  acts.filterMap sqlOfAction

/-- Refinement target taken from the spec's words for C7: for each
geometry column, a sequence of DDL statements that add a temporary
GEOGRAPHY-typed column, populate it via `TRY_TO_GEOGRAPHY` from the
text column, drop the original text column, and rename the temporary
column into its place. -/
def specGeoCastStatements (table : String) (geomCols : List String) : List String :=
  (geomCols.map (fun c =>
    ["ALTER TABLE " ++ table ++ " ADD COLUMN " ++ c ++ "_geo GEOGRAPHY",
     "UPDATE " ++ table ++ " SET " ++ c ++ "_geo = TRY_TO_GEOGRAPHY(" ++ c ++ ")",
     "ALTER TABLE " ++ table ++ " DROP COLUMN " ++ c,
     "ALTER TABLE " ++ table ++ " RENAME COLUMN " ++ c ++ "_geo TO " ++ c])).flatten

/-- The geometry stringification loop of `SnowflakeGeoWriter.write`:
`df[col] = df[col].apply(lambda g: ops.geometry_to_db(g) if g else None)`
for each geometry column; `geomToDb` abstracts `ops.geometry_to_db`. -/
def stringifyGeometryColumns (geomCols : List String) (geomToDb : PdVal → PdVal)
    (df : List PdColumn) : List PdColumn :=
  df.map (fun c =>
    if geomCols.contains c.name then
      ⟨c.name, c.isObjectDtype,
        c.values.map (fun v => if v.isNull then .null else geomToDb v)⟩
    else c)

/-- Result computation of `SnowflakeWriter.write`: prepare, convert to
pandas, `write_from_pandas` (which returns `len(df)`), and wrap with
the parsed schema and table. -/
def snowflakeWriterWrite {F : Type} (conv : ConverterOps F) (height : F → Nat)
    (fmt : List PdVal → String) (df : F) (src : SourceInfo) :
    Except WriteError ExecutionResultM :=
  match conv.prepare fmt df with
  | .error _ => .error .conversionError
  | .ok (df1, _) =>
      let pdf := conv.toPandas df1
      .ok ⟨height pdf, src.schema, src.table⟩

/-- Result computation of `SnowflakeGeoWriter.write`: stringify
geometry columns, prepare, convert to pandas, `write_from_pandas`
(returning `len(df)`), run the geography cast, and wrap with the
parsed schema and table. -/
def snowflakeGeoWriterWrite (geomToDb : PdVal → PdVal) (fmt : List PdVal → String)
    (geomCols : List String) (df : List PdColumn) (src : SourceInfo) :
    Except WriteError ExecutionResultM :=
  let df0 := stringifyGeometryColumns geomCols geomToDb df
  match detect_pandas_array_columns fmt df0 with
  | .error _ => .error .conversionError
  | .ok (df1, _) => .ok ⟨pdHeight df1, src.schema, src.table⟩

/- ## Entry-point lookup in `Executor.submit` -/

/-- A value bound in the namespace produced by `exec(compiled_code)`:
either a function value (tagged with the destination tables it writes
through the bound `write` closure when invoked) or any non-callable
value. -/
inductive NsVal where
  | callable (writes : List String)
  | notCallable

/-- Outcome of the entry-point phase of `Executor.submit`. -/
inductive SubmitOutcome where
  | ok
  | errMissingEntryPoint
  | errNotCallable
deriving DecidableEq

/-- Entry-point lookup and invocation in `Executor.submit`: the check is
`if "main" not in local_vars`, raising
`RuntimeError("No main function found in compiled code")` on absence;
a present but non-callable binding passes the check and the call
`local_vars["main"](...)` raises `TypeError` before any write.  The
second component is the write log of the call; model code can write
only through the `write` closure handed to `main`. -/
def submitRun (ns : List (String × NsVal)) : SubmitOutcome × List String :=
  match ns.lookup "main" with
  | none => (.errMissingEntryPoint, [])
  | some .notCallable => (.errNotCallable, [])
  | some (.callable ws) => (.ok, ws)

/- ## Executor registry (`executors/executor.py`, `db/__init__.py`) -/

/-- Bundle of a reader, writer, and converter (`ExecutorConfig`); the
three strategies are identified by name. -/
structure ExecutorConfigM where
  reader : String
  writer : String
  converter : String

/-- The backend operations classes of `db/__init__.py`. -/
inductive DbOpsKind where
  | postgresOps
  | snowflakeOps

/-- The credentials fields `Executor.create` consults. -/
structure CredsM where
  type : String

/-- The `ops_registry` of `db/__init__.py`: always contains
`postgres`; contains `snowflake` exactly when the snowflake import
succeeds. -/
def opsRegistry (snowflakeAvailable : Bool) : List (String × DbOpsKind) :=
  ("postgres", .postgresOps)
    :: (if snowflakeAvailable then [("snowflake", .snowflakeOps)] else [])

/-- Embedding of `get_db_ops` (`db/__init__.py`): looks the credentials `type` up in
`ops_registry`; the error carries the supported type list
(`UnsupportedBackend`). -/
def get_db_ops (snowflakeAvailable : Bool) (creds : CredsM) :
    Except (List String) DbOpsKind :=
  match (opsRegistry snowflakeAvailable).lookup creds.type with
  | none => .error ((opsRegistry snowflakeAvailable).map Prod.fst)
  | some ops => .ok ops

/-- An executor as `Executor.__init__` builds it: the bundle's three
components plus the `DbContext` of ops and credentials. -/
structure ExecutorM where
  reader : String
  writer : String
  converter : String
  ctxOps : DbOpsKind
  ctxCreds : CredsM

/-- Errors `Executor.create` can raise. -/
inductive CreateError where
  | unsupportedCombination (library db_type : String)
      (available : List (String × String))
  | unsupportedBackend (db_type : String) (supported : List String)

/-- Shallow embedding of `Executor.create`: fail with the registered
key list when `(library, db_type)` is not in the registry
(`UnsupportedCombination`); otherwise build the `DbContext` via
`get_db_ops` and compose the registered bundle. -/
def Executor.create (registry : List ((String × String) × ExecutorConfigM))
    (snowflakeAvailable : Bool) (library db_type : String) (creds : CredsM) :
    Except CreateError ExecutorM :=
  match registry.lookup (library, db_type) with
  | none => .error (.unsupportedCombination library db_type (registry.map Prod.fst))
  | some cfg =>
      match get_db_ops snowflakeAvailable creds with
      | .error supported => .error (.unsupportedBackend creds.type supported)
      | .ok ops => .ok ⟨cfg.reader, cfg.writer, cfg.converter, ops, creds⟩

/-- The registry populated at import time by `executors/__init__.py`;
the snowflake bundles are registered exactly when the snowflake import
succeeds. -/
def deppRegistry (snowflakeAvailable : Bool) :
    List ((String × String) × ExecutorConfigM) :=
  [(("polars", "postgres"), ⟨"PostgresReader", "PostgresWriter", "PolarsConverter"⟩),
   (("pandas", "postgres"), ⟨"PostgresReader", "PostgresWriter", "PandasConverter"⟩),
   (("geopandas", "postgres"),
     ⟨"PostgresGeoReader", "PostgresGeoWriter", "GeoPandasConverter"⟩)]
  ++ (if snowflakeAvailable then
      [(("polars", "snowflake"), ⟨"SnowflakeReader", "SnowflakeWriter", "PolarsConverter"⟩),
       (("pandas", "snowflake"), ⟨"SnowflakeReader", "SnowflakeWriter", "PandasConverter"⟩),
       (("geopandas", "snowflake"),
         ⟨"SnowflakeGeoReader", "SnowflakeGeoWriter", "GeoPandasConverter"⟩)]
      else [])

/-! ## Helper lemmas -/

/-- The `read_time` accumulator after a run is its starting value plus
the timed read segments of the run. -/
theorem runEvents_read_time (t : ExecutorTimers) (evs : List ModelEvent) :
    (runEvents t evs).read_time = t.read_time + (evs.map readContrib).sum := by
  induction evs generalizing t with
  | nil => simp [runEvents]
  | cons e es ih => simp [runEvents, ih]; omega

/-- The `write_time` accumulator after a run is its starting value plus
the timed write segments of the run. -/
theorem runEvents_write_time (t : ExecutorTimers) (evs : List ModelEvent) :
    (runEvents t evs).write_time = t.write_time + (evs.map writeContrib).sum := by
  induction evs generalizing t with
  | nil => simp [runEvents]
  | cons e es ih => simp [runEvents, ih]; omega

/-- Each event's timed read and write segments fit inside its wall-clock
duration. -/
theorem contrib_le_eventDur (e : ModelEvent) :
    readContrib e + writeContrib e ≤ eventDur e := by
  cases e with
  | read p a c => simp only [readContrib, writeContrib, eventDur]; omega
  | write p w => simp only [readContrib, writeContrib, eventDur]; omega
  | transform d => simp [readContrib, writeContrib, eventDur]

/-- Accumulated read and write time fit inside total elapsed time. -/
theorem sum_contrib_le_totalElapsed (evs : List ModelEvent) :
    (evs.map readContrib).sum + (evs.map writeContrib).sum ≤ totalElapsed evs := by
  induction evs with
  | nil => simp [totalElapsed]
  | cons e es ih =>
      have h := contrib_le_eventDur e
      simp only [totalElapsed, List.map_cons, List.sum_cons] at ih ⊢
      omega

/-! ## C1 -/

/-- C1: `SourceInfo.parse` strips double quotes from each dot-separated
segment; when at least two segments remain it returns schema = the
second-to-last segment, table = the last segment and
full_name = "schema.table", silently discarding any leading
catalog/database segment; with fewer than two segments the `parts[-2]`
access fails (the spec's `MalformedReference` condition).  The two
spec examples both yield schema "public" and table "orders". -/
theorem c1_parse_last_two_segments (s : String) :
    (2 ≤ (parseParts s).length →
      SourceInfo.parse s = some
        ⟨(parseParts s).getD ((parseParts s).length - 2) ""
            ++ "." ++ (parseParts s).getD ((parseParts s).length - 1) "",
          (parseParts s).getD ((parseParts s).length - 2) "",
          (parseParts s).getD ((parseParts s).length - 1) ""⟩)
    ∧ ((parseParts s).length < 2 → SourceInfo.parse s = none)
    ∧ SourceInfo.parse "\"db\".\"public\".\"orders\""
        = some ⟨"public.orders", "public", "orders"⟩
    ∧ SourceInfo.parse "public.orders" = some ⟨"public.orders", "public", "orders"⟩ := by
  refine ⟨?_, ?_, by decide, by decide⟩
  · intro h
    have h1 : 1 ≤ (parseParts s).length := by omega
    have h2 : (parseParts s).length - 2 < (parseParts s).length := by omega
    have h3 : (parseParts s).length - 1 < (parseParts s).length := by omega
    simp only [SourceInfo.parse, pyGetNeg, if_pos h, if_pos h1,
      List.get?_eq_get h2, List.get?_eq_get h3]
    simp [List.getD, List.getElem?_eq_getElem h2, List.getElem?_eq_getElem h3,
      List.get_eq_getElem]
  · intro h
    have h2 : ¬ 2 ≤ (parseParts s).length := by omega
    simp only [SourceInfo.parse, pyGetNeg, if_neg h2]

/-- Witness for C1 at the concrete inputs `"a.b.c"` and `"orders"`. -/
theorem c1_parse_last_two_segments_witness :
    (2 ≤ (parseParts "a.b.c").length
      ∧ SourceInfo.parse "a.b.c" = some ⟨"b.c", "b", "c"⟩)
    ∧ ((parseParts "orders").length < 2 ∧ SourceInfo.parse "orders" = none) :=
  ⟨⟨by decide, by
      have h := (c1_parse_last_two_segments "a.b.c").1 (by decide)
      rw [h]; rfl⟩,
   ⟨by decide, (c1_parse_last_two_segments "orders").2.1 (by decide)⟩⟩

/-! ## C2 -/

/-- C2 counterexample: the claim says any return value that is neither
a matching mapping nor a well-formed result object causes a
`MalformedResult` error, but `submit` performs no such validation —
`exec_result = result` for every non-dict value, and the subsequent
timing-attribute assignments succeed on any object with settable
attributes, so this non-result object is returned without error. -/
theorem c2_counterexample_value_passthrough :
    submitInterpret (PyVal.obj true) = Except.ok (PyVal.obj true) := rfl

/-- C2 (amended): a mapping whose keys are exactly the result's three
required fields is converted into a result object and a mapping with
any other key set raises `TypeError`; an `ExecutionResult` instance
passes through; every other value is used as the result unvalidated,
failing (with `AttributeError`, not a `MalformedResult` check) only
when the timing-attribute assignments are impossible, as for `int` and
`str` values and objects without settable attributes. -/
theorem c2_submit_result_interpretation :
    (∀ entries, keysMatchResult entries = true →
        submitInterpret (PyVal.dict entries) = .ok (.resultObj 0))
    ∧ (∀ entries, keysMatchResult entries = false →
        submitInterpret (PyVal.dict entries) = .error .typeError)
    ∧ (∀ i, submitInterpret (PyVal.resultObj i) = .ok (.resultObj i))
    ∧ submitInterpret (PyVal.obj false) = .error .attributeError
    ∧ (∀ n, submitInterpret (PyVal.int n) = .error .attributeError)
    ∧ (∀ t, submitInterpret (PyVal.str t) = .error .attributeError) := by
  refine ⟨?_, ?_, fun i => rfl, rfl, fun n => rfl, fun t => rfl⟩
  · intro entries h
    simp [submitInterpret, interpretResult, setTimingAttrs, h]
  · intro entries h
    simp [submitInterpret, interpretResult, setTimingAttrs, h]

/-- Witness for C2 at concrete mappings with matching and mismatched
keys. -/
theorem c2_submit_result_interpretation_witness :
    (keysMatchResult [("rows_affected", 0), ("schema", 1), ("table", 2)] = true
      ∧ submitInterpret (PyVal.dict [("rows_affected", 0), ("schema", 1), ("table", 2)])
          = .ok (.resultObj 0))
    ∧ (keysMatchResult [("rows", 0)] = false
      ∧ submitInterpret (PyVal.dict [("rows", 0)]) = .error .typeError) :=
  ⟨⟨by decide,
    c2_submit_result_interpretation.1 [("rows_affected", 0), ("schema", 1), ("table", 2)]
      (by decide)⟩,
   ⟨by decide, c2_submit_result_interpretation.2.1 [("rows", 0)] (by decide)⟩⟩

/-! ## C3 -/

/-- C3: for every run of `submit` the returned result satisfies
`read_time + write_time ≤ total_elapsed` and `transform_time ≥ 0`,
with `transform_time = total_elapsed - read_time - write_time`, where
`read_time`/`write_time` are the durations accumulated inside the
bound `read`/`write` closures during this call, both reset to zero at
the start of the call (the result is independent of the accumulators'
prior state `st`). -/
theorem c3_timing_invariant (st : ExecutorTimers) (events : List ModelEvent) :
    (submitTiming st events).read_time + (submitTiming st events).write_time
        ≤ totalElapsed events
    ∧ 0 ≤ (submitTiming st events).transform_time
    ∧ (submitTiming st events).transform_time
        = (totalElapsed events : Int) - (submitTiming st events).read_time
            - (submitTiming st events).write_time
    ∧ submitTiming st events = submitTiming ⟨0, 0⟩ events := by
  have hr := runEvents_read_time ⟨0, 0⟩ events
  have hw := runEvents_write_time ⟨0, 0⟩ events
  have hle := sum_contrib_le_totalElapsed events
  have hread : (submitTiming st events).read_time = (events.map readContrib).sum := by
    simp [submitTiming, hr]
  have hwrite : (submitTiming st events).write_time = (events.map writeContrib).sum := by
    simp [submitTiming, hw]
  have htrans : (submitTiming st events).transform_time
      = (totalElapsed events : Int) - (events.map readContrib).sum
          - (events.map writeContrib).sum := by
    simp [submitTiming, hr, hw]
  refine ⟨?_, ?_, ?_, rfl⟩
  · rw [hread, hwrite]; exact hle
  · rw [htrans]; omega
  · rw [htrans, hread, hwrite]

/-! ## C4 -/

/-- C4 counterexample: for the table `(id, geom, name)` with geometry
column `geom`, the projected SELECT of `PostgresGeoReader.read_arrow`
moves the geometry projection to the end of the select list instead of
keeping the table's original column order as the claim states. -/
theorem c4_counterexample_column_order :
    postgresGeoSelectParts ["id", "geom", "name"] [("geom", 4326)]
      = ["id", "name", "ST_AsBinary(geom) as geom_wkb"]
    ∧ specOrderPreservingParts ["id", "geom", "name"] ["geom"]
      = ["id", "ST_AsBinary(geom) as geom_wkb", "name"]
    ∧ postgresGeoSelectParts ["id", "geom", "name"] [("geom", 4326)]
      ≠ specOrderPreservingParts ["id", "geom", "name"] ["geom"] :=
  ⟨by decide, by decide, by decide⟩

/-- C4 (amended): the geometry-aware PostgreSQL read computes
`regular = all_columns − geometry_columns` preserving the catalog
order (a sublist of `allCols`), builds the projected SELECT as the
regular columns followed by `ST_AsBinary(col) as col_wkb` for each
geometry column (appended at the end, not substituted in place),
returns the executed query tagged `format = "wkb"`, the geometry
column names, and the first geometry column's SRID; with no geometry
columns it degrades to a plain read of all columns tagged with zero
geometry columns and the default SRID. -/
theorem c4_geo_read_projection {α : Type} (schema table : String)
    (geomCols : List (String × Nat)) (allCols : List String) (execQuery : String → α) :
    (postgresGeoRead schema table geomCols allCols execQuery).geometry_columns
        = geomCols.map Prod.fst
    ∧ (postgresGeoRead schema table geomCols allCols execQuery).format = "wkb"
    ∧ (geomCols ≠ [] →
        (postgresGeoRead schema table geomCols allCols execQuery).srid
          = (geomCols.map Prod.snd).headI)
    ∧ postgresGeoSelectParts allCols geomCols
        = allCols.filter (fun c => !(geomCols.map Prod.fst).contains c)
            ++ (geomCols.map Prod.fst).map wkbProjection
    ∧ (allCols.filter (fun c => !(geomCols.map Prod.fst).contains c)).Sublist allCols
    ∧ (geomCols = [] →
        postgresGeoSelectParts allCols geomCols = allCols
        ∧ (postgresGeoRead schema table geomCols allCols execQuery).geometry_columns = []
        ∧ (postgresGeoRead schema table geomCols allCols execQuery).srid = DEFAULT_SRID)
    ∧ (postgresGeoRead schema table geomCols allCols execQuery).table
        = execQuery (postgresGeoQuery schema table allCols geomCols) := by
  refine ⟨rfl, rfl, ?_, rfl, List.filter_sublist _, ?_, rfl⟩
  · intro h
    match geomCols, h with
    | (c, n) :: rest, _ => simp [postgresGeoRead, List.headI]
  · intro h
    subst h
    refine ⟨?_, rfl, rfl⟩
    simp [postgresGeoSelectParts]

/-- Witness for C4: a one-geometry-column table yields its catalog
SRID, and a geometry-free table degrades to selecting all columns. -/
theorem c4_geo_read_projection_witness :
    ([("geom", 4326)] ≠ ([] : List (String × Nat))
      ∧ (postgresGeoRead "s" "t" [("geom", 4326)] ["id", "geom", "name"] id).srid = 4326)
    ∧ postgresGeoSelectParts ["id", "geom"] ([] : List (String × Nat)) = ["id", "geom"] :=
  ⟨⟨by decide, by
      have h := (c4_geo_read_projection "s" "t" [("geom", 4326)] ["id", "geom", "name"]
        id).2.2.1 (by decide)
      rw [h]; rfl⟩,
   ((c4_geo_read_projection "s" "t" [] ["id", "geom"] id).2.2.2.2.2.1 rfl).1⟩

/-! ## C5 -/

/-- C5 counterexample: a Polars `List`-dtype column with no non-null
values is NOT left untouched and excluded — `PolarsConverter.
prepare_array_columns` selects columns by dtype, rewrites the all-null
column (to an all-null string column) and includes it in the returned
mapping tagged `is_integer = false`. -/
theorem c5_counterexample_polars_all_null :
    polarsPrepare pgFormatArray [PlColumn.listCol "a" [none, none]]
      = ([PlColumn.strCol "a" [none, none]], [("a", false)])
    ∧ (polarsPrepare pgFormatArray [PlColumn.listCol "a" [none, none]]).2
        ≠ ([] : List (String × Bool)) := by
  refine ⟨rfl, ?_⟩
  intro h
  rw [show (polarsPrepare pgFormatArray [PlColumn.listCol "a" [none, none]]).2
      = [("a", false)] from rfl] at h
  simp at h

/-- C5 (amended): in the pandas-based converters a column that is not
object-dtype or has no array-like value is left untouched and excluded
from the mapping (in particular a column with no non-null values has
no array-like value); a handled column has every value rewritten with
`db_ops.format_array` (non-list values become null) and is tagged by
its first non-null sampled value, a list sample tagging exactly
all-integer lists `true`.  The Polars converter instead handles
columns by `List` dtype: a non-`List` column is untouched and
excluded, and every `List`-dtype column — including one with no
non-null values — is rewritten and included, an all-null column tagged
`false`; the spec's example tags an integer-list column `true` and a
string-list column `false`. -/
theorem c5_array_column_detection :
    (∀ fmt (col : PdColumn), col.isObjectDtype = false →
        processPandasColumn fmt col = .ok (col, none))
    ∧ (∀ fmt (col : PdColumn), col.values.any isArrayLike = false →
        processPandasColumn fmt col = .ok (col, none))
    ∧ (∀ (values : List PdVal), firstNonNull values = none →
        values.any isArrayLike = false)
    ∧ (∀ fmt col col1 b, processPandasColumn fmt col = .ok (col1, some b) →
        col1.name = col.name
        ∧ col1.values = col.values.map (rewriteArrayValue fmt))
    ∧ (∀ (values l : List PdVal), firstNonNull values = some (.list l) →
        sampleIsInt values = .ok (l.all PdVal.isInt))
    ∧ (∀ fmt name k rest, polarsPrepare fmt (.plainCol name k :: rest)
        = (.plainCol name k :: (polarsPrepare fmt rest).1, (polarsPrepare fmt rest).2))
    ∧ (∀ fmt name values rest,
        polarsPrepare fmt (.listCol name values :: rest)
          = (.strCol name (values.map (Option.map fmt))
                :: (polarsPrepare fmt rest).1,
             (name,
               match values.findSome? id with
               | some l => l.all PdVal.isInt
               | none => false) :: (polarsPrepare fmt rest).2))
    ∧ (polarsPrepare pgFormatArray
        [PlColumn.listCol "ints" [some [.int 1, .int 2]],
         PlColumn.listCol "strs" [some [.str "x", .str "y"]]]).2
      = [("ints", true), ("strs", false)] := by
  refine ⟨?_, ?_, ?_, ?_, ?_, fun fmt name k rest => rfl, fun fmt name values rest => rfl,
    by decide⟩
  · intro fmt col h
    simp [processPandasColumn, h]
  · intro fmt col h
    by_cases h1 : col.isObjectDtype <;> simp [processPandasColumn, h1, h]
  · intro values h
    simp only [firstNonNull] at h
    rw [List.find?_eq_none] at h
    rw [List.any_eq_false]
    intro v hv
    have := h v hv
    cases v <;> simp_all [PdVal.isNull, isArrayLike]
  · intro fmt col col1 b h
    cases h1 : col.isObjectDtype with
    | false => simp [processPandasColumn, h1] at h
    | true =>
      cases h2 : col.values.any isArrayLike with
      | false => simp [processPandasColumn, h1, h2] at h
      | true =>
        cases h3 : sampleIsInt col.values with
        | error e => simp [processPandasColumn, h1, h2, h3] at h
        | ok b1 =>
          simp [processPandasColumn, h1, h2, h3] at h
          rw [← h.1]
          exact ⟨rfl, rfl⟩
  · intro values l h
    simp [sampleIsInt, firstNonNull] at h ⊢
    rw [h]
    rfl

/-- Witness for C5 at concrete columns: a non-array column is skipped,
and a column whose first non-null value is an integer list samples to
`true`. -/
theorem c5_array_column_detection_witness :
    (PdColumn.mk "x" true [PdVal.int 1, PdVal.str "y"]).values.any isArrayLike = false
    ∧ processPandasColumn pgFormatArray (PdColumn.mk "x" true [PdVal.int 1, PdVal.str "y"])
        = .ok (PdColumn.mk "x" true [PdVal.int 1, PdVal.str "y"], none)
    ∧ firstNonNull [PdVal.null, PdVal.list [PdVal.int 7]]
        = some (PdVal.list [PdVal.int 7])
    ∧ sampleIsInt [PdVal.null, PdVal.list [PdVal.int 7]] = .ok true :=
  ⟨by decide,
   c5_array_column_detection.2.1 pgFormatArray
     (PdColumn.mk "x" true [PdVal.int 1, PdVal.str "y"]) (by decide),
   rfl,
   c5_array_column_detection.2.2.2.2.1 [PdVal.null, PdVal.list [PdVal.int 7]]
     [PdVal.int 7] rfl⟩

/-! ## C6 -/

/-- C6 counterexample: a plain PostgreSQL write whose bulk-load fails
does NOT leave the prior destination table intact — `PostgresWriter.
write` first runs `drop_table`, which commits `DROP TABLE IF EXISTS
... CASCADE` on its own connection, so after the failed load the
destination is absent rather than holding its prior contents. -/
theorem c6_counterexample_drop_before_load :
    (postgresWriterWrite polarsConverterOps plHeight pgFormatArray FailPoint.atBulkLoad
        (some [PlColumn.plainCol "old_rows" 1]) [PlColumn.plainCol "x" 2]
        ⟨"s.t", "s", "t"⟩).1 = none
    ∧ some [PlColumn.plainCol "old_rows" 1] ≠ (none : Option (List PlColumn)) := by
  refine ⟨rfl, ?_⟩
  intro h
  simp at h

/-- C6 (amended): the plain PostgreSQL write is not
read-until-atomic-replace — once `prepare_array_columns` succeeds the
writer drops (and commits) the destination before bulk-loading, so a
bulk-load failure leaves no destination table and an array-cast
failure leaves the freshly loaded table; only a failure inside
`prepare_array_columns`, which precedes every database operation,
leaves the prior state untouched. -/
theorem c6_failed_write_state {F : Type} (conv : ConverterOps F) (height : F → Nat)
    (fmt : List PdVal → String) (dest : Option F) (df : F) (src : SourceInfo) :
    (∀ df1 cols, conv.prepare fmt df = .ok (df1, cols) →
        postgresWriterWrite conv height fmt .atBulkLoad dest df src
          = (none, .error .backendError)
        ∧ (cols ≠ [] →
            postgresWriterWrite conv height fmt .atArrayCast dest df src
              = (some (conv.toPolars df1), .error .backendError)))
    ∧ (∀ e, conv.prepare fmt df = .error e →
        (postgresWriterWrite conv height fmt .atBulkLoad dest df src).1 = dest) := by
  constructor
  · intro df1 cols h
    refine ⟨by simp [postgresWriterWrite, h], ?_⟩
    intro hc
    have hc2 : cols.isEmpty = false := by
      cases cols with
      | nil => exact absurd rfl hc
      | cons c cs => rfl
    simp [postgresWriterWrite, h, hc2]
  · intro e h
    simp [postgresWriterWrite, h]

/-- Witness for C6: a concrete Polars frame with one integer-list
column; the bulk-load failure leaves no table and the cast failure
leaves the newly loaded frame. -/
theorem c6_failed_write_state_witness :
    polarsConverterOps.prepare pgFormatArray [PlColumn.listCol "a" [some [PdVal.int 1]]]
      = .ok ([PlColumn.strCol "a" [some "\x7b1\x7d"]], [("a", true)])
    ∧ ([("a", true)] : List (String × Bool)) ≠ []
    ∧ postgresWriterWrite polarsConverterOps plHeight pgFormatArray FailPoint.atBulkLoad
        (some [PlColumn.plainCol "old_rows" 3]) [PlColumn.listCol "a" [some [PdVal.int 1]]]
        ⟨"s.t", "s", "t"⟩ = (none, .error .backendError)
    ∧ postgresWriterWrite polarsConverterOps plHeight pgFormatArray FailPoint.atArrayCast
        (some [PlColumn.plainCol "old_rows" 3]) [PlColumn.listCol "a" [some [PdVal.int 1]]]
        ⟨"s.t", "s", "t"⟩
      = (some [PlColumn.strCol "a" [some "\x7b1\x7d"]], .error .backendError) := by
  have h := (c6_failed_write_state polarsConverterOps plHeight pgFormatArray
      (some [PlColumn.plainCol "old_rows" 3]) [PlColumn.listCol "a" [some [PdVal.int 1]]]
      ⟨"s.t", "s", "t"⟩).1
      [PlColumn.strCol "a" [some "\x7b1\x7d"]] [("a", true)] rfl
  exact ⟨rfl, by simp, h.1, h.2 (by simp)⟩

/-! ## C7 -/

/-- C7 counterexample: for a table with one geometry column the
Snowflake geometry writer issues exactly one SQL statement — a single
`CREATE OR REPLACE TABLE ... AS SELECT TRY_TO_GEOGRAPHY(...) ...` —
not the claimed per-column sequence of add-temporary-column, populate,
drop and rename DDL statements (four statements for one column). -/
theorem c7_counterexample_single_ctas :
    sqlStatements (snowflakeGeoWriteActions "s" "t" ["geo"] ["id", "geo"])
      = ["CREATE OR REPLACE TABLE S.T AS SELECT ID, TRY_TO_GEOGRAPHY(GEO) AS GEO FROM S.T"]
    ∧ (sqlStatements (snowflakeGeoWriteActions "s" "t" ["geo"] ["id", "geo"])).length = 1
    ∧ (specGeoCastStatements "T" ["geo"]).length = 4
    ∧ sqlStatements (snowflakeGeoWriteActions "s" "t" ["geo"] ["id", "geo"])
        ≠ specGeoCastStatements "T" ["geo"] :=
  ⟨by decide, by decide, by decide, by decide⟩

/-- C7 (amended): the Snowflake geometry write stringifies each
geometry column to its GeoJSON literal before the generic
array-detection/write path runs, bulk-loads the frame as plain text
via `write_pandas`, and then issues, in total, one single
`CREATE OR REPLACE TABLE ... AS SELECT` statement that rebuilds the
table converting each geometry text column with
`TRY_TO_GEOGRAPHY(col)` and passing the other columns through — not a
per-column add/populate/drop/rename sequence. -/
theorem c7_snowflake_geo_write (schema table : String) (geomCols allCols : List String)
    (h : geomCols ≠ []) :
    (snowflakeGeoWriteActions schema table geomCols allCols).take geomCols.length
        = geomCols.map SfAction.stringifyGeometry
    ∧ (snowflakeGeoWriteActions schema table geomCols allCols).drop geomCols.length
        = [SfAction.prepareArrayColumns, SfAction.toPandas,
           SfAction.writePandas table schema,
           SfAction.execSql (cast_geography_columns_sql schema table allCols geomCols)]
    ∧ sqlStatements (snowflakeGeoWriteActions schema table geomCols allCols)
        = [cast_geography_columns_sql schema table allCols geomCols]
    ∧ (∃ rest, cast_geography_columns_sql schema table allCols geomCols
        = "CREATE OR REPLACE TABLE " ++ rest)
    ∧ (∀ c, (geomCols.map pyLower).contains c = true →
        ctasSelectItem (geomCols.map pyLower) c
          = "TRY_TO_GEOGRAPHY(" ++ pyUpper c ++ ") AS " ++ pyUpper c)
    ∧ (∀ c, (geomCols.map pyLower).contains c = false →
        ctasSelectItem (geomCols.map pyLower) c = pyUpper c) := by
  have hne : geomCols.isEmpty = false := by
    cases geomCols with
    | nil => exact absurd rfl h
    | cons c cs => rfl
  have hlen : geomCols.length = (geomCols.map SfAction.stringifyGeometry).length := by
    simp
  refine ⟨?_, ?_, ?_, ⟨_, rfl⟩, ?_, ?_⟩
  · rw [snowflakeGeoWriteActions, hne, hlen, List.append_assoc, List.take_left]
  · rw [snowflakeGeoWriteActions, hne, hlen, List.append_assoc, List.drop_left]
    simp
  · simp [snowflakeGeoWriteActions, sqlStatements, hne, List.filterMap_append,
      sqlOfAction, List.filterMap_map, Function.comp]
  · intro c hc
    simp only [ctasSelectItem, hc]
    simp
  · intro c hc
    simp only [ctasSelectItem, hc]
    simp

/-- Witness for C7 at a concrete one-geometry-column table. -/
theorem c7_snowflake_geo_write_witness :
    (["geo"] : List String) ≠ []
    ∧ sqlStatements (snowflakeGeoWriteActions "s" "t" ["geo"] ["id", "geo"])
        = [cast_geography_columns_sql "s" "t" ["id", "geo"] ["geo"]] :=
  ⟨by decide,
   (c7_snowflake_geo_write "s" "t" ["geo"] ["id", "geo"] (by decide)).2.2.1⟩

/-! ## C8 -/

/-- C8 counterexample: `submit` checks only that a binding named
`main` exists (`if "main" not in local_vars`), not that it is
callable — compiled code binding `main` to a non-callable value
defines no callable `main`, yet the failure is a `TypeError` when the
value is invoked, not the `MissingEntryPoint` condition the claim
requires. -/
theorem c8_counterexample_noncallable_main :
    (submitRun [("main", NsVal.notCallable)]).1 = SubmitOutcome.errNotCallable
    ∧ SubmitOutcome.errNotCallable ≠ SubmitOutcome.errMissingEntryPoint :=
  ⟨rfl, by decide⟩

/-- C8 (amended): when the executed code binds no name `main` at all,
`submit` fails with the `MissingEntryPoint` condition and performs no
write; when it binds `main` to a non-callable value, `submit` still
fails before any write, but with the call-time `TypeError`, not
`MissingEntryPoint`. -/
theorem c8_missing_entry_point (ns : List (String × NsVal)) :
    (ns.lookup "main" = none →
      submitRun ns = (SubmitOutcome.errMissingEntryPoint, []))
    ∧ (ns.lookup "main" = some NsVal.notCallable →
      submitRun ns = (SubmitOutcome.errNotCallable, [])) := by
  constructor
  · intro h
    simp [submitRun, h]
  · intro h
    simp [submitRun, h]

/-- Witness for C8: a namespace binding only a helper function, and a
namespace binding `main` to a non-callable value. -/
theorem c8_missing_entry_point_witness :
    ([("helper", NsVal.callable ["x"])].lookup "main" = none
      ∧ submitRun [("helper", NsVal.callable ["x"])]
          = (SubmitOutcome.errMissingEntryPoint, []))
    ∧ ([("main", NsVal.notCallable)].lookup "main" = some NsVal.notCallable
      ∧ submitRun [("main", NsVal.notCallable)]
          = (SubmitOutcome.errNotCallable, [])) :=
  ⟨⟨rfl, (c8_missing_entry_point [("helper", NsVal.callable ["x"])]).1 rfl⟩,
   ⟨rfl, (c8_missing_entry_point [("main", NsVal.notCallable)]).2 rfl⟩⟩

/-! ## C9 -/

/-- C9: `Executor.create` fails with an `UnsupportedCombination` error
listing the registered `(library, backend_type)` keys whenever no
bundle is registered for the pair, and otherwise returns an executor
composed of exactly the reader, writer and converter of the registered
bundle (together with the `DbContext` built by `get_db_ops`); the
spec's `("rust_frame", "postgres")` example fails on the deployed
registry whether or not snowflake support loaded. -/
theorem c9_executor_create (registry : List ((String × String) × ExecutorConfigM))
    (sfAvail : Bool) (library db_type : String) (creds : CredsM) :
    (registry.lookup (library, db_type) = none →
      Executor.create registry sfAvail library db_type creds
        = .error (.unsupportedCombination library db_type (registry.map Prod.fst)))
    ∧ (∀ cfg ops, registry.lookup (library, db_type) = some cfg →
        get_db_ops sfAvail creds = .ok ops →
        Executor.create registry sfAvail library db_type creds
          = .ok ⟨cfg.reader, cfg.writer, cfg.converter, ops, creds⟩)
    ∧ Executor.create (deppRegistry sfAvail) sfAvail "rust_frame" "postgres" ⟨"postgres"⟩
        = .error (.unsupportedCombination "rust_frame" "postgres"
            ((deppRegistry sfAvail).map Prod.fst)) := by
  refine ⟨?_, ?_, ?_⟩
  · intro h
    simp [Executor.create, h]
  · intro cfg ops h1 h2
    simp [Executor.create, h1, h2]
  · cases sfAvail with
    | false => rfl
    | true => rfl

/-- Witness for C9: on the deployed registry with snowflake available,
creating a `("polars", "postgres")` executor with postgres credentials
yields exactly the registered bundle's components. -/
theorem c9_executor_create_witness :
    (deppRegistry true).lookup ("polars", "postgres")
        = some ⟨"PostgresReader", "PostgresWriter", "PolarsConverter"⟩
    ∧ get_db_ops true ⟨"postgres"⟩ = .ok .postgresOps
    ∧ Executor.create (deppRegistry true) true "polars" "postgres" ⟨"postgres"⟩
        = .ok ⟨"PostgresReader", "PostgresWriter", "PolarsConverter",
               .postgresOps, ⟨"postgres"⟩⟩ :=
  ⟨rfl, rfl,
   (c9_executor_create (deppRegistry true) true "polars" "postgres" ⟨"postgres"⟩).2.1
     ⟨"PostgresReader", "PostgresWriter", "PolarsConverter"⟩ .postgresOps rfl rfl⟩

/-! ## Helper lemmas on frame heights -/

/-- A handled pandas column keeps its number of rows. -/
theorem processPandasColumn_length (fmt : List PdVal → String) (col col1 : PdColumn)
    (tag : Option Bool) (h : processPandasColumn fmt col = .ok (col1, tag)) :
    col1.values.length = col.values.length := by
  cases h1 : col.isObjectDtype with
  | false =>
      simp [processPandasColumn, h1] at h
      rw [← h.1]
  | true =>
      cases h2 : col.values.any isArrayLike with
      | false =>
          simp [processPandasColumn, h1, h2] at h
          rw [← h.1]
      | true =>
          cases h3 : sampleIsInt col.values with
          | error e => simp [processPandasColumn, h1, h2, h3] at h
          | ok b =>
              simp [processPandasColumn, h1, h2, h3] at h
              rw [← h.1]
              simp

/-- Lemma: `detect_pandas_array_columns` keeps the frame's number of rows. -/
theorem detect_pandas_array_columns_height (fmt : List PdVal → String)
    (df df1 : List PdColumn) (tags : List (String × Bool))
    (h : detect_pandas_array_columns fmt df = .ok (df1, tags)) :
    pdHeight df1 = pdHeight df := by
  cases df with
  | nil =>
      simp [detect_pandas_array_columns] at h
      rw [← h.1]
  | cons col rest =>
      cases h1 : processPandasColumn fmt col with
      | error e => simp [detect_pandas_array_columns, h1] at h
      | ok p =>
          cases h2 : detect_pandas_array_columns fmt rest with
          | error e => simp [detect_pandas_array_columns, h1, h2] at h
          | ok q =>
              simp [detect_pandas_array_columns, h1, h2] at h
              rw [← h.1]
              simp only [pdHeight]
              exact processPandasColumn_length fmt col p.1 p.2 (by rw [h1])

/-- Lemma: `PolarsConverter.prepare_array_columns` keeps the frame's number of
rows. -/
theorem polarsPrepare_height (fmt : List PdVal → String) (df : List PlColumn) :
    plHeight (polarsPrepare fmt df).1 = plHeight df := by
  cases df with
  | nil => rfl
  | cons col rest => cases col <;> simp [polarsPrepare, plHeight, plColHeight]

/-- Geometry stringification keeps the frame's number of rows. -/
theorem stringifyGeometryColumns_height (geomCols : List String)
    (geomToDb : PdVal → PdVal) (df : List PdColumn) :
    pdHeight (stringifyGeometryColumns geomCols geomToDb df) = pdHeight df := by
  cases df with
  | nil => rfl
  | cons col rest =>
      simp only [stringifyGeometryColumns, List.map_cons, pdHeight]
      split <;> simp

/-! ## C10 -/

/-- C10: every successful write through the four registered writers
returns an `ExecutionResult` whose `rows_affected` equals the number
of rows of the dataframe that was written and whose `schema` and
`table` equal the parsed destination's schema and table: the plain
PostgreSQL writer with the Polars and pandas converters, the
PostgreSQL geometry writer, the plain Snowflake writer with both
converters, and the Snowflake geometry writer. -/
theorem c10_writer_result_fields (fmt : List PdVal → String) (src : SourceInfo) :
    (∀ (dest : Option (List PlColumn)) (df : List PlColumn),
      (postgresWriterWrite polarsConverterOps plHeight fmt .noFail dest df src).2
        = .ok ⟨plHeight df, src.schema, src.table⟩)
    ∧ (∀ (dest : Option (List PdColumn)) (df df1 : List PdColumn)
        (tags : List (String × Bool)),
        detect_pandas_array_columns fmt df = .ok (df1, tags) →
        (postgresWriterWrite pandasConverterOps pdHeight fmt .noFail dest df src).2
          = .ok ⟨pdHeight df, src.schema, src.table⟩)
    ∧ (∀ (dest : Option (List PdColumn)) (df : List PdColumn),
        (postgresGeoWriterWrite pdHeight dest df src).2
          = .ok ⟨pdHeight df, src.schema, src.table⟩)
    ∧ (∀ (df : List PlColumn),
        snowflakeWriterWrite polarsConverterOps plHeight fmt df src
          = .ok ⟨plHeight df, src.schema, src.table⟩)
    ∧ (∀ (df df1 : List PdColumn) (tags : List (String × Bool)),
        detect_pandas_array_columns fmt df = .ok (df1, tags) →
        snowflakeWriterWrite pandasConverterOps pdHeight fmt df src
          = .ok ⟨pdHeight df, src.schema, src.table⟩)
    ∧ (∀ (geomToDb : PdVal → PdVal) (geomCols : List String)
        (df df1 : List PdColumn) (tags : List (String × Bool)),
        detect_pandas_array_columns fmt
            (stringifyGeometryColumns geomCols geomToDb df) = .ok (df1, tags) →
        snowflakeGeoWriterWrite geomToDb fmt geomCols df src
          = .ok ⟨pdHeight df, src.schema, src.table⟩) := by
  refine ⟨?_, ?_, fun dest df => rfl, ?_, ?_, ?_⟩
  · intro dest df
    simp [postgresWriterWrite, polarsConverterOps, polarsPrepare_height fmt df]
  · intro dest df df1 tags h
    simp [postgresWriterWrite, pandasConverterOps, h,
      detect_pandas_array_columns_height fmt df df1 tags h]
  · intro df
    simp [snowflakeWriterWrite, polarsConverterOps, polarsPrepare_height fmt df]
  · intro df df1 tags h
    simp [snowflakeWriterWrite, pandasConverterOps, h,
      detect_pandas_array_columns_height fmt df df1 tags h]
  · intro geomToDb geomCols df df1 tags h
    have hh := detect_pandas_array_columns_height fmt _ df1 tags h
    rw [stringifyGeometryColumns_height geomCols geomToDb df] at hh
    simp [snowflakeGeoWriterWrite, h, hh]

/-- Witness for C10: a two-row pandas frame written through the plain
PostgreSQL writer reports two affected rows and the parsed
destination's schema and table. -/
theorem c10_writer_result_fields_witness :
    detect_pandas_array_columns pgFormatArray
        [PdColumn.mk "v" false [PdVal.int 1, PdVal.int 2]]
      = .ok ([PdColumn.mk "v" false [PdVal.int 1, PdVal.int 2]], [])
    ∧ (postgresWriterWrite pandasConverterOps pdHeight pgFormatArray .noFail none
        [PdColumn.mk "v" false [PdVal.int 1, PdVal.int 2]] ⟨"s.t", "s", "t"⟩).2
      = .ok ⟨2, "s", "t"⟩ :=
  ⟨rfl,
   (c10_writer_result_fields pgFormatArray ⟨"s.t", "s", "t"⟩).2.1 none
     [PdColumn.mk "v" false [PdVal.int 1, PdVal.int 2]]
     [PdColumn.mk "v" false [PdVal.int 1, PdVal.int 2]] [] rfl⟩

end Depp
